import Mathlib

/-!
Verification development for the tbol island authoring core.

The definitions below are a shallow embedding of `src/tbol_gdext/src/mechanics.rs`
and `src/tbol_gdext/src/luau_sandbox.rs`:

* `Tbol.Mechanics` embeds the serializable domain data model and the
  room-adjacency algorithm.
* `Tbol.Lua` embeds the fragment of the mlua value model the sandbox binding
  observes (table lookups, sequence traversal, and the `FromLua` coercions the
  binding instantiates).
* `Tbol.Sandbox` embeds the script-facing binding methods, with the external
  collaborators (path validator, file system, RON parser) held abstract in a
  `LoaderEnv`.
* `Tbol.Ron` models the RON serialization of the domain entities at the level
  of a structured value tree, as the spec fixes only a deterministic
  round-trippable format, not a concrete textual syntax.

Machine integers are modelled by `Nat`/`Int` (`u32`/`usize` as `Nat`, `i64` as
`Int`); none of the verified operations perform arithmetic that can overflow a
64-bit quantity on the inputs the theorems quantify over, except the adjacency
sums `pos + extent`, which are taken over mathematical integers exactly as the
spec describes the boxes.
-/

namespace Tbol

namespace Mechanics

/-- `TileData` from mechanics.rs: one grid cell, a closed variant. -/
inductive TileData where
  | none
  | tile (palette_index : Nat)
  | door (palette_index : Nat) (target_room_id : Nat)
  deriving DecidableEq

/-- `Island` from mechanics.rs: core island configuration. -/
structure Island where
  dock_room_id : Nat
  name : String
  description : String
  deriving DecidableEq

/-- `Room` from mechanics.rs. `pos_*` are `i64`, `extent_*` are `u32`, and the
sparse `tiles` HashMap is modelled as an association list keyed by grid index. -/
structure Room where
  room_id : Nat
  pos_x : Int
  pos_y : Int
  pos_z : Int
  extent_x : Nat
  extent_y : Nat
  extent_z : Nat
  looping_x : Bool
  looping_y : Bool
  looping_z : Bool
  tiles : List (Nat × TileData)
  deriving DecidableEq

/-- `EntitySpawn` from mechanics.rs, with the string property bag as an
association list. -/
structure EntitySpawn where
  entity_type : String
  room_id : Nat
  grid_index : Nat
  properties : List (String × String)
  deriving DecidableEq

/-- `IslandData` from mechanics.rs: the runtime aggregate handed to host-side
queries. -/
structure IslandData where
  island : Island
  rooms : List Room
  deriving DecidableEq

/-- `Room::are_adjacent` from mechanics.rs, translated clause by clause: for
each axis, exact touching of the half-open extents on that axis together with
the strict-inequality overlap test on the two other axes. -/
def Room.are_adjacent (a b : Room) : Bool :=
  let a_min_x := a.pos_x
  let a_max_x := a.pos_x + (a.extent_x : Int)
  let a_min_y := a.pos_y
  let a_max_y := a.pos_y + (a.extent_y : Int)
  let a_min_z := a.pos_z
  let a_max_z := a.pos_z + (a.extent_z : Int)
  let b_min_x := b.pos_x
  let b_max_x := b.pos_x + (b.extent_x : Int)
  let b_min_y := b.pos_y
  let b_max_y := b.pos_y + (b.extent_y : Int)
  let b_min_z := b.pos_z
  let b_max_z := b.pos_z + (b.extent_z : Int)
  let x_adjacent := (a_max_x == b_min_x || b_max_x == a_min_x)
      && !(decide (a_max_y ≤ b_min_y) || decide (b_max_y ≤ a_min_y))
      && !(decide (a_max_z ≤ b_min_z) || decide (b_max_z ≤ a_min_z))
  let y_adjacent := (a_max_y == b_min_y || b_max_y == a_min_y)
      && !(decide (a_max_x ≤ b_min_x) || decide (b_max_x ≤ a_min_x))
      && !(decide (a_max_z ≤ b_min_z) || decide (b_max_z ≤ a_min_z))
  let z_adjacent := (a_max_z == b_min_z || b_max_z == a_min_z)
      && !(decide (a_max_x ≤ b_min_x) || decide (b_max_x ≤ a_min_x))
      && !(decide (a_max_y ≤ b_min_y) || decide (b_max_y ≤ a_min_y))
  x_adjacent || y_adjacent || z_adjacent

/-- `IslandData::rooms_are_adjacent` from mechanics.rs: same id short-circuits
to false, then both ids are looked up among the loaded rooms (first match). -/
def IslandData.rooms_are_adjacent (d : IslandData) (room_a_id room_b_id : Nat) : Bool :=
  if room_a_id == room_b_id then false
  else
    match d.rooms.find? (fun r => r.room_id == room_a_id),
          d.rooms.find? (fun r => r.room_id == room_b_id) with
    | some a, some b => Room.are_adjacent a b
    | _, _ => false

/-- Spec-side predicate (following the words of the claim, not the code): two
half-open intervals touch exactly when one maximum equals the other minimum. -/
def touchesExactly (amin amax bmin bmax : Int) : Prop :=
  amax = bmin ∨ bmax = amin

/-- Spec-side predicate (following the words of the claim, not the code): the
projections `[amin, amax)` and `[bmin, bmax)` overlap with strictly positive
measure, i.e. their intersection is an interval of positive length. -/
def overlapsPositively (amin amax bmin bmax : Int) : Prop :=
  0 < min amax bmax - max amin bmin

/-- Spec-side adjacency (following the words of the claim): some axis touches
exactly while the projections on both other axes overlap with strictly
positive measure. -/
def specAdjacent (a b : Room) : Prop :=
  (touchesExactly a.pos_x (a.pos_x + a.extent_x) b.pos_x (b.pos_x + b.extent_x)
      ∧ overlapsPositively a.pos_y (a.pos_y + a.extent_y) b.pos_y (b.pos_y + b.extent_y)
      ∧ overlapsPositively a.pos_z (a.pos_z + a.extent_z) b.pos_z (b.pos_z + b.extent_z))
  ∨ (touchesExactly a.pos_y (a.pos_y + a.extent_y) b.pos_y (b.pos_y + b.extent_y)
      ∧ overlapsPositively a.pos_x (a.pos_x + a.extent_x) b.pos_x (b.pos_x + b.extent_x)
      ∧ overlapsPositively a.pos_z (a.pos_z + a.extent_z) b.pos_z (b.pos_z + b.extent_z))
  ∨ (touchesExactly a.pos_z (a.pos_z + a.extent_z) b.pos_z (b.pos_z + b.extent_z)
      ∧ overlapsPositively a.pos_x (a.pos_x + a.extent_x) b.pos_x (b.pos_x + b.extent_x)
      ∧ overlapsPositively a.pos_y (a.pos_y + a.extent_y) b.pos_y (b.pos_y + b.extent_y))

instance (amin amax bmin bmax : Int) : Decidable (touchesExactly amin amax bmin bmax) := by
  unfold touchesExactly
  infer_instance

instance (amin amax bmin bmax : Int) : Decidable (overlapsPositively amin amax bmin bmax) := by
  unfold overlapsPositively
  infer_instance

instance (a b : Room) : Decidable (specAdjacent a b) := by
  unfold specAdjacent
  infer_instance

/-- A 5 by 5 by 5 cube with its minimum corner at integer x, as in the spec
example. -/
def cube (id : Nat) (x : Int) : Room :=
  ⟨id, x, 0, 0, 5, 5, 5, false, false, false, []⟩

/-- A degenerate room, flat on the y axis (extent 0), positioned so that the
code's strict-inequality overlap test on y succeeds while the y projections
intersect in a set of measure zero. -/
def degenerateRoom : Room :=
  ⟨1, 0, 2, 0, 5, 0, 5, false, false, false, []⟩

/-- A full 5 by 5 by 5 room whose x extent starts where `degenerateRoom` ends. -/
def solidRoom : Room :=
  ⟨2, 5, 0, 0, 5, 5, 5, false, false, false, []⟩

/-- Commuting the arguments of `Room::are_adjacent` does not change it: every
clause of the algorithm is symmetric in the two rooms. -/
theorem are_adjacent_symm (a b : Room) :
    Room.are_adjacent a b = Room.are_adjacent b a := by
  rw [Bool.eq_iff_iff]
  simp only [Room.are_adjacent, Bool.or_eq_true, Bool.and_eq_true, Bool.not_eq_true',
    Bool.or_eq_false_iff, decide_eq_false_iff_not, beq_iff_eq, not_le]
  omega

end Mechanics

namespace Lua

/-- Keys of the Lua tables this binding reads: integer indices and string
field names (no other key shape occurs in the embedded scripts). -/
inductive TKey where
  | int (i : Int)
  | str (s : String)
  deriving DecidableEq

/-- mlua `Value`, restricted to the variants the binding observes. The payload
of a float (`Value::Number`) is opaque: it is carried as a raw bit pattern and
never interpreted arithmetically. A Lua function is identified by the registry
reference mlua would create for it. -/
inductive Value where
  | nil
  | boolean (b : Bool)
  | integer (i : Int)
  | number (bits : Nat)
  | str (s : String)
  | table (entries : List (TKey × Value))
  | function (ref : Nat)

/-- Lua table indexing: the value bound to a key, `nil` when the key is absent. -/
def tget (entries : List (TKey × Value)) (k : TKey) : Value :=
  match entries.find? (fun e => e.1 == k) with
  | some e => e.2
  | none => Value.nil

/-- The raw values mlua `sequence_values` visits: `t[1]`, `t[2]`, ... up to but
excluding the first `nil`. The fuel is bounded by the entry count, which bounds
the length of any nil-free initial run of integer keys. -/
def seqFrom (entries : List (TKey × Value)) : Nat → Int → List Value
  | 0, _ => []
  | fuel + 1, i =>
    match tget entries (TKey.int i) with
    | Value.nil => []
    | v => v :: seqFrom entries fuel (i + 1)

/-- The sequence part of a Lua table, as visited by mlua `sequence_values`. -/
def seqValues (entries : List (TKey × Value)) : List Value :=
  seqFrom entries entries.length 1

/-- mlua `FromLua` for `String` (external to src, modelled per its documented
coercion): Lua strings pass through, and numeric values coerce to their textual
form; every other value fails to convert. The text of a float is derived from
its opaque bits, which no claim inspects. -/
def coerceString : Value → Except String String
  | Value.str s => Except.ok s
  | Value.integer i => Except.ok (toString i)
  | Value.number bits => Except.ok ("float<" ++ toString bits ++ ">")
  | _ => Except.error "error converting Lua value to String"

/-- mlua `FromLua` for `i64` (external to src): integers pass through. mlua
also accepts a float whose value is exactly integral; the float payload is
opaque here and no claim exercises that case, so it is modelled as failing like
the other mismatched variants. -/
def coerceI64 : Value → Except String Int
  | Value.integer i => Except.ok i
  | _ => Except.error "error converting Lua value to i64"

/-- mlua `FromLua` for `Function` (external to src): only a function converts. -/
def coerceFunction : Value → Except String Nat
  | Value.function r => Except.ok r
  | _ => Except.error "error converting Lua value to Function"

/-- mlua `FromLua` for `Table` (external to src): only a table converts. -/
def coerceTable : Value → Except String (List (TKey × Value))
  | Value.table t => Except.ok t
  | _ => Except.error "error converting Lua value to Table"

/-- `table.get::<Option<T>>(key)`: an absent or nil entry is `none`; any other
value goes through the `FromLua` conversion for `T`, whose failure propagates. -/
def getOpt {α : Type} (conv : Value → Except String α)
    (entries : List (TKey × Value)) (key : String) : Except String (Option α) :=
  match tget entries (TKey.str key) with
  | Value.nil => Except.ok none
  | v => (conv v).map some

/-- `table.get::<Option<Value>>(key)`: never fails; nil becomes `none`. -/
def getValue (entries : List (TKey × Value)) (key : String) : Option Value :=
  match tget entries (TKey.str key) with
  | Value.nil => none
  | v => some v

/-- mlua `pairs::<String, String>` over a table: each entry has key and value
converted with the string coercion; an integer key coerces to its textual form
the way an integer value does. -/
def pairsStringString (entries : List (TKey × Value)) :
    List (Except String (String × String)) :=
  entries.map (fun e =>
    match e.1, coerceString e.2 with
    | TKey.str k, Except.ok v => Except.ok (k, v)
    | TKey.int i, Except.ok v => Except.ok (toString i, v)
    | _, Except.error m => Except.error m)

end Lua

/-- `HashMap::insert`: any previous binding of the key is replaced. -/
def insertAssoc {κ α : Type} [BEq κ] (m : List (κ × α)) (k : κ) (v : α) :
    List (κ × α) :=
  m.filter (fun e => !(e.1 == k)) ++ [(k, v)]

/-- `HashMap::get`: the binding of a key, if any. -/
def lookupAssoc {κ α : Type} [BEq κ] (m : List (κ × α)) (k : κ) : Option α :=
  (m.find? (fun e => e.1 == k)).map (fun e => e.2)

namespace Sandbox

/-- `DefaultValue` from luau_sandbox.rs, the tagged default of a field. The
float payload stays opaque, as in the Lua value model. -/
inductive DefaultValue where
  | int (i : Int)
  | float (bits : Nat)
  | str (s : String)
  | bool (b : Bool)
  deriving DecidableEq

/-- `FieldOptions` from luau_sandbox.rs, with the schema HashMap as an
association list. -/
structure FieldOptions where
  default : Option DefaultValue
  min : Option Int
  max : Option Int
  values : Option (List String)
  keys : Option String
  value_type : Option String
  item_type : Option String
  schema : Option (List (String × String))
  deriving DecidableEq

/-- `FieldRegistration` from luau_sandbox.rs. -/
structure FieldRegistration where
  field_name : String
  field_type : String
  options : FieldOptions
  deriving DecidableEq

/-- `IslandData` from luau_sandbox.rs: the shared state behind the mutex. The
HashMaps are association lists; an mlua `RegistryKey` is modelled by the
registry reference of the function it was created from; paths are strings. -/
structure IslandData where
  tile_layers : List String := []
  entity_layers : List String := []
  tile_fields : List (String × List FieldRegistration) := []
  entity_fields : List (String × List FieldRegistration) := []
  island_config : Option Mechanics.Island := none
  rooms : List Mechanics.Room := []
  entity_spawns : List Mechanics.EntitySpawn := []
  gltf_registry : List (String × String) := []
  base_path : String := ""
  room_process_fns : List (Nat × Nat) := []
  room_physics_process_fns : List (Nat × Nat) := []
  process_fn : Option Nat := none
  physics_process_fn : Option Nat := none
  deriving DecidableEq

/-- The state `Island::new` wraps: all collections empty, base path
`tbol_vanilla`. -/
def IslandData.init : IslandData := { base_path := "tbol_vanilla" }

/-- Result of one script-facing method call: a returned value, a
`LuaError::RuntimeError` the calling script can catch, or a Rust panic that
aborts the process and is not catchable from the script. -/
inductive Outcome (α : Type) where
  | ok (val : α)
  | err (msg : String)
  | crash (msg : String)
  deriving DecidableEq

/-- The external collaborators the loader methods call: the path/filename
validator from the path_security crate, the blocking file read, and the RON
deserializer at the three entity types. All live outside src; they are held
abstract and constrained only per call site. -/
structure LoaderEnv where
  validate_path : String → String → Except String String
  validate_filename : String → Except String Unit
  read_to_string : String → Except String String
  parse_island : String → Except String Mechanics.Island
  parse_room : String → Except String Mechanics.Room
  parse_spawn : String → Except String Mechanics.EntitySpawn

/-- `parse_field_options` from luau_sandbox.rs, option by option in source
order: `default` is a best-effort match that drops unrecognized shapes, `min`
and `max` go through the fallible i64 conversion, `values` distinguishes a
table (whose element conversion failures are skipped by the `if let Ok`) from
a string, `keys` and `item_type` go through the fallible string conversion,
and `schema` requires a table whose pair conversion failures are skipped. -/
def parse_field_options (options : List (Lua.TKey × Lua.Value)) :
    Except String FieldOptions := do
  let default := (Lua.getValue options "default").bind (fun v =>
    match v with
    | Lua.Value.integer i => some (DefaultValue.int i)
    | Lua.Value.number n => some (DefaultValue.float n)
    | Lua.Value.str s => some (DefaultValue.str s)
    | Lua.Value.boolean b => some (DefaultValue.bool b)
    | _ => none)
  let min ← Lua.getOpt Lua.coerceI64 options "min"
  let max ← Lua.getOpt Lua.coerceI64 options "max"
  let vv : Option (List String) × Option String :=
    match Lua.getValue options "values" with
    | some (Lua.Value.table t) =>
      (some ((Lua.seqValues t).filterMap (fun v => (Lua.coerceString v).toOption)), none)
    | some (Lua.Value.str s) => (none, some s)
    | _ => (none, none)
  let keys ← Lua.getOpt Lua.coerceString options "keys"
  let item_type ← Lua.getOpt Lua.coerceString options "item_type"
  let schemaTable ← Lua.getOpt Lua.coerceTable options "schema"
  let schema := schemaTable.map (fun t =>
    (Lua.pairsStringString t).foldl
      (fun m r =>
        match r with
        | Except.ok kv => insertAssoc m kv.1 kv.2
        | Except.error _ => m) [])
  pure { default := default, min := min, max := max, values := vv.1,
         keys := keys, value_type := vv.2, item_type := item_type, schema := schema }

/-- `HashMap::entry(kind).or_insert_with(Vec::new).push(reg)`: append to the
sequence for the kind, creating it when the kind is first seen. -/
def entryPush (m : List (String × List FieldRegistration)) (k : String)
    (r : FieldRegistration) : List (String × List FieldRegistration) :=
  match m with
  | [] => [(k, [r])]
  | e :: rest => if e.1 = k then (e.1, e.2 ++ [r]) :: rest else e :: entryPush rest k r

/-- `register_tile_field` from luau_sandbox.rs: parse the option bag (its
failure propagates to the script), then append the registration under the tile
kind. -/
def register_tile_field (st : IslandData) (tile_type field_name field_type : String)
    (options : List (Lua.TKey × Lua.Value)) : Outcome Unit × IslandData :=
  match parse_field_options options with
  | Except.error m => (Outcome.err m, st)
  | Except.ok fo =>
    (Outcome.ok (),
      { st with tile_fields := entryPush st.tile_fields tile_type ⟨field_name, field_type, fo⟩ })

/-- `register_entity_field` from luau_sandbox.rs: as the tile variant, on the
entity field registry. -/
def register_entity_field (st : IslandData) (entity_type field_name field_type : String)
    (options : List (Lua.TKey × Lua.Value)) : Outcome Unit × IslandData :=
  match parse_field_options options with
  | Except.error m => (Outcome.err m, st)
  | Except.ok fo =>
    (Outcome.ok (),
      { st with entity_fields := entryPush st.entity_fields entity_type ⟨field_name, field_type, fo⟩ })

/-- `load_island_config` from luau_sandbox.rs: validate the path against the
base directory, read, parse, and only then replace the config field. Each
failure is mapped to a runtime error; the read error message embeds the
requested path. -/
def load_island_config (env : LoaderEnv) (st : IslandData) (path : String) :
    Outcome Unit × IslandData :=
  match env.validate_path path st.base_path with
  | Except.error e => (Outcome.err e, st)
  | Except.ok full_path =>
    match env.read_to_string full_path with
    | Except.error e =>
      (Outcome.err ("Failed to read island config from " ++ path ++ ": " ++ e), st)
    | Except.ok content =>
      match env.parse_island content with
      | Except.error e => (Outcome.err ("Failed to parse island config: " ++ e), st)
      | Except.ok island => (Outcome.ok (), { st with island_config := some island })

/-- `load_entity_spawn` from luau_sandbox.rs: validate, read, parse, append. -/
def load_entity_spawn (env : LoaderEnv) (st : IslandData) (path : String) :
    Outcome Unit × IslandData :=
  match env.validate_path path st.base_path with
  | Except.error e => (Outcome.err e, st)
  | Except.ok full_path =>
    match env.read_to_string full_path with
    | Except.error e =>
      (Outcome.err ("Failed to read entity spawn from " ++ path ++ ": " ++ e), st)
    | Except.ok content =>
      match env.parse_spawn content with
      | Except.error e => (Outcome.err ("Failed to parse entity spawn: " ++ e), st)
      | Except.ok spawn =>
        (Outcome.ok (), { st with entity_spawns := st.entity_spawns ++ [spawn] })

/-- `register_room` from luau_sandbox.rs: validate, read, parse, append the
room, then read the optional `process` and `physics_process` callbacks from the
options table, inserting each into the per-room map keyed by the room id. A
failing callback conversion propagates after the room was already appended,
exactly as in the source. -/
def register_room (env : LoaderEnv) (st : IslandData) (path : String)
    (options : List (Lua.TKey × Lua.Value)) : Outcome Unit × IslandData :=
  match env.validate_path path st.base_path with
  | Except.error e => (Outcome.err e, st)
  | Except.ok full_path =>
    match env.read_to_string full_path with
    | Except.error e =>
      (Outcome.err ("Failed to read room file " ++ path ++ ": " ++ e), st)
    | Except.ok room_content =>
      match env.parse_room room_content with
      | Except.error e =>
        (Outcome.err ("Failed to parse room file " ++ path ++ ": " ++ e), st)
      | Except.ok room =>
        let room_id := room.room_id
        let st := { st with rooms := st.rooms ++ [room] }
        match Lua.getOpt Lua.coerceFunction options "process" with
        | Except.error e => (Outcome.err e, st)
        | Except.ok processOpt =>
          let st :=
            match processOpt with
            | some key =>
              { st with room_process_fns := insertAssoc st.room_process_fns room_id key }
            | none => st
          match Lua.getOpt Lua.coerceFunction options "physics_process" with
          | Except.error e => (Outcome.err e, st)
          | Except.ok physicsOpt =>
            let st :=
              match physicsOpt with
              | some key =>
                { st with room_physics_process_fns :=
                    insertAssoc st.room_physics_process_fns room_id key }
              | none => st
            (Outcome.ok (), st)

/-- `register_gltf` from luau_sandbox.rs: the filename validation error is
mapped to a runtime error, but the path validation result is taken apart with
`Result::unwrap`, so its failure is a Rust panic, not a script error. -/
def register_gltf (env : LoaderEnv) (st : IslandData) (name path : String) :
    Outcome Unit × IslandData :=
  match env.validate_filename name with
  | Except.error e => (Outcome.err ("Invalid GLTF name: " ++ e), st)
  | Except.ok () =>
    match env.validate_path path st.base_path with
    | Except.error e => (Outcome.crash e, st)
    | Except.ok fullpath =>
      (Outcome.ok (), { st with gltf_registry := insertAssoc st.gltf_registry name fullpath })

/-- `Island::get_mechanics_island_data` from luau_sandbox.rs: a snapshot built
from the loaded config and room list, absent until a config is loaded. -/
def get_mechanics_island_data (st : IslandData) : Option Mechanics.IslandData :=
  st.island_config.map (fun config => ⟨config, st.rooms⟩)

/-- The script-facing `rooms_are_adjacent` method from luau_sandbox.rs: a
missing island config is a runtime error, otherwise the mechanics query runs
on the snapshot. -/
def rooms_are_adjacent (st : IslandData) (room_a_id room_b_id : Nat) : Outcome Bool :=
  match get_mechanics_island_data st with
  | none => Outcome.err "Island config not loaded"
  | some d => Outcome.ok (d.rooms_are_adjacent room_a_id room_b_id)

end Sandbox

namespace Ron

/-- Modelled from the spec: the repository serializes `Island`, `Room` and
`EntitySpawn` with serde + ron (`#[derive(Serialize, Deserialize)]` in
mechanics.rs), whose implementation lives outside src. The spec is agnostic to
the concrete textual syntax and requires only a deterministic, human-editable,
round-trippable structured format, so the format is modelled as a tree of
typed RON values: integers, strings, booleans, unit and tuple enum variants,
records with named fields, and maps. -/
inductive Value where
  | int (i : Int)
  | str (s : String)
  | bool (b : Bool)
  | unitVariant (name : String)
  | tupleVariant (name : String) (args : List Value)
  | record (fields : List (String × Value))
  | rmap (entries : List (Value × Value))

/-- A nonnegative integer as a natural number, rejecting negatives. -/
def intToNatOpt : Int → Option Nat
  | Int.ofNat n => some n
  | Int.negSucc _ => none

/-- Modelled from the spec: deserializing an unsigned integer field (`u32` or
`usize`), which rejects negative literals. -/
def decodeNat : Value → Option Nat
  | Value.int i => intToNatOpt i
  | _ => none

/-- Modelled from the spec: serializing `TileData` as the tagged values
`None`, `Tile(idx)`, `Door(idx, room_id)`. -/
def encodeTile : Mechanics.TileData → Value
  | Mechanics.TileData.none => Value.unitVariant "None"
  | Mechanics.TileData.tile p => Value.tupleVariant "Tile" [Value.int p]
  | Mechanics.TileData.door p r => Value.tupleVariant "Door" [Value.int p, Value.int r]

/-- Modelled from the spec: deserializing `TileData` from its tagged value. -/
def decodeTile : Value → Option Mechanics.TileData
  | Value.unitVariant "None" => some Mechanics.TileData.none
  | Value.tupleVariant "Tile" [p] => (decodeNat p).map Mechanics.TileData.tile
  | Value.tupleVariant "Door" [p, r] => do
    let p' ← decodeNat p
    let r' ← decodeNat r
    pure (Mechanics.TileData.door p' r')
  | _ => none

/-- Modelled from the spec: serializing the sparse tile map as a map literal
with integer keys. -/
def encodeTiles (l : List (Nat × Mechanics.TileData)) : List (Value × Value) :=
  l.map (fun e => (Value.int e.1, encodeTile e.2))

/-- Modelled from the spec: deserializing the sparse tile map entry by entry. -/
def decodeTiles : List (Value × Value) → Option (List (Nat × Mechanics.TileData))
  | [] => some []
  | (k, v) :: rest => do
    let k' ← decodeNat k
    let v' ← decodeTile v
    let rest' ← decodeTiles rest
    pure ((k', v') :: rest')

/-- Modelled from the spec: serializing the string property bag as a map
literal with string keys. -/
def encodeProps (l : List (String × String)) : List (Value × Value) :=
  l.map (fun e => (Value.str e.1, Value.str e.2))

/-- Modelled from the spec: deserializing the string property bag. -/
def decodeProps : List (Value × Value) → Option (List (String × String))
  | [] => some []
  | (Value.str k, Value.str v) :: rest => (decodeProps rest).map (fun r => (k, v) :: r)
  | _ => none

/-- Modelled from the spec: serializing `Island` as a record of named fields. -/
def encodeIsland (x : Mechanics.Island) : Value :=
  Value.record [("dock_room_id", Value.int x.dock_room_id),
                ("name", Value.str x.name),
                ("description", Value.str x.description)]

/-- Modelled from the spec: deserializing `Island`. -/
def decodeIsland : Value → Option Mechanics.Island
  | Value.record [("dock_room_id", d), ("name", Value.str n), ("description", Value.str ds)] =>
    (decodeNat d).map (fun d' => ⟨d', n, ds⟩)
  | _ => none

/-- Modelled from the spec: serializing `Room` as a record of named fields. -/
def encodeRoom (x : Mechanics.Room) : Value :=
  Value.record [("room_id", Value.int x.room_id),
                ("pos_x", Value.int x.pos_x),
                ("pos_y", Value.int x.pos_y),
                ("pos_z", Value.int x.pos_z),
                ("extent_x", Value.int x.extent_x),
                ("extent_y", Value.int x.extent_y),
                ("extent_z", Value.int x.extent_z),
                ("looping_x", Value.bool x.looping_x),
                ("looping_y", Value.bool x.looping_y),
                ("looping_z", Value.bool x.looping_z),
                ("tiles", Value.rmap (encodeTiles x.tiles))]

/-- Modelled from the spec: the fields of a record value. -/
def asRecord : Value → Option (List (String × Value))
  | Value.record fields => some fields
  | _ => none

/-- Modelled from the spec: a signed integer literal. -/
def asInt : Value → Option Int
  | Value.int i => some i
  | _ => none

/-- Modelled from the spec: a boolean literal. -/
def asBool : Value → Option Bool
  | Value.bool b => some b
  | _ => none

/-- Modelled from the spec: a map literal. -/
def asRmap : Value → Option (List (Value × Value))
  | Value.rmap entries => some entries
  | _ => none

/-- Modelled from the spec: reading the i-th field of a record, which must
carry the expected name. -/
def fieldAt (fields : List (String × Value)) (i : Nat) (name : String) : Option Value :=
  match fields[i]? with
  | some e => if e.1 = name then some e.2 else none
  | none => none

/-- Modelled from the spec: deserializing `Room` field by field. -/
def decodeRoom (v : Value) : Option Mechanics.Room := do
  let fields ← asRecord v
  let rid ← fieldAt fields 0 "room_id" >>= decodeNat
  let px ← fieldAt fields 1 "pos_x" >>= asInt
  let py ← fieldAt fields 2 "pos_y" >>= asInt
  let pz ← fieldAt fields 3 "pos_z" >>= asInt
  let ex ← fieldAt fields 4 "extent_x" >>= decodeNat
  let ey ← fieldAt fields 5 "extent_y" >>= decodeNat
  let ez ← fieldAt fields 6 "extent_z" >>= decodeNat
  let lx ← fieldAt fields 7 "looping_x" >>= asBool
  let ly ← fieldAt fields 8 "looping_y" >>= asBool
  let lz ← fieldAt fields 9 "looping_z" >>= asBool
  let ts ← fieldAt fields 10 "tiles" >>= asRmap
  let ts' ← decodeTiles ts
  pure ⟨rid, px, py, pz, ex, ey, ez, lx, ly, lz, ts'⟩

/-- Modelled from the spec: serializing `EntitySpawn` as a record. -/
def encodeSpawn (x : Mechanics.EntitySpawn) : Value :=
  Value.record [("entity_type", Value.str x.entity_type),
                ("room_id", Value.int x.room_id),
                ("grid_index", Value.int x.grid_index),
                ("properties", Value.rmap (encodeProps x.properties))]

/-- Modelled from the spec: deserializing `EntitySpawn`. -/
def decodeSpawn : Value → Option Mechanics.EntitySpawn
  | Value.record [("entity_type", Value.str et),
                  ("room_id", rid),
                  ("grid_index", gi),
                  ("properties", Value.rmap ps)] => do
    let rid' ← decodeNat rid
    let gi' ← decodeNat gi
    let ps' ← decodeProps ps
    pure ⟨et, rid', gi', ps'⟩
  | _ => none

end Ron

/-- A loader environment in which every path escapes the base directory while
filenames validate, no file is readable and nothing parses: it exercises the
validation-failure paths concretely. -/
def envReject : Sandbox.LoaderEnv :=
  { validate_path := fun _ _ => Except.error "path escapes base directory"
    validate_filename := fun _ => Except.ok ()
    read_to_string := fun _ => Except.error "read attempted"
    parse_island := fun _ => Except.error "parse attempted"
    parse_room := fun _ => Except.error "parse attempted"
    parse_spawn := fun _ => Except.error "parse attempted" }

/-- A loader environment in which every path validates to itself but no file
exists: it exercises the read-failure paths concretely. -/
def envMissingFile : Sandbox.LoaderEnv :=
  { validate_path := fun p _ => Except.ok p
    validate_filename := fun _ => Except.ok ()
    read_to_string := fun _ => Except.error "No such file or directory"
    parse_island := fun _ => Except.error "nothing to parse"
    parse_room := fun _ => Except.error "nothing to parse"
    parse_spawn := fun _ => Except.error "nothing to parse" }

/-- A one-cell room with id 7, used to exercise duplicate registration. -/
def roomSeven : Mechanics.Room :=
  ⟨7, 0, 0, 0, 1, 1, 1, false, false, false, []⟩

/-- A loader environment in which every path validates to itself, every file
reads as an empty string, and every room file parses to `roomSeven`. -/
def envRoomLoader : Sandbox.LoaderEnv :=
  { validate_path := fun p _ => Except.ok p
    validate_filename := fun _ => Except.ok ()
    read_to_string := fun _ => Except.ok ""
    parse_island := fun _ => Except.error "not an island"
    parse_room := fun _ => Except.ok roomSeven
    parse_spawn := fun _ => Except.error "not a spawn" }

/-- An option bag whose `values` sequence holds one boolean, a failing
string conversion. -/
def valuesWithBoolean : List (Lua.TKey × Lua.Value) :=
  [(Lua.TKey.str "values", Lua.Value.table [(Lua.TKey.int 1, Lua.Value.boolean true)])]

/-- An option bag whose `min` is a boolean, a failing i64 conversion. -/
def mistypedMin : List (Lua.TKey × Lua.Value) :=
  [(Lua.TKey.str "min", Lua.Value.boolean true)]

/-- An option bag mixing an unrecognized `default` shape, a well-typed `min`,
and a `values` sequence whose trailing element fails its string conversion. -/
def permissiveBag : List (Lua.TKey × Lua.Value) :=
  [(Lua.TKey.str "default", Lua.Value.table []),
   (Lua.TKey.str "min", Lua.Value.integer 3),
   (Lua.TKey.str "values",
     Lua.Value.table [(Lua.TKey.int 1, Lua.Value.str "a"),
                      (Lua.TKey.int 2, Lua.Value.boolean true)])]

/-- The option bag of the spec example: `{ default = 10 }`. -/
def defaultTenBag : List (Lua.TKey × Lua.Value) :=
  [(Lua.TKey.str "default", Lua.Value.integer 10)]

open Mechanics

/-- C2 (counterexample): for the degenerate flat room next to a solid room the
code reports adjacency, yet no axis has both other projections overlapping with
strictly positive measure — the y projections meet in a measure-zero set. So
the claimed equivalence fails as stated for rooms that are allowed a zero
extent. -/
theorem c2_counterexample_degenerate_extent :
    Room.are_adjacent degenerateRoom solidRoom = true
      ∧ ¬ specAdjacent degenerateRoom solidRoom := by
  constructor
  · decide
  · decide

/-- C2 (amended): restricted to rooms with strictly positive extents on every
axis, `Room::are_adjacent` returns true exactly when some axis touches exactly
while the projections on both other axes overlap with strictly positive
measure; and the two spec cubes at x = 0 and x = 5 are adjacent while the cubes
at x = 0 and x = 10 are not. -/
theorem c2_adjacency_iff_spec_on_positive_extents :
    (∀ a b : Room,
      0 < a.extent_x → 0 < a.extent_y → 0 < a.extent_z →
      0 < b.extent_x → 0 < b.extent_y → 0 < b.extent_z →
      (Room.are_adjacent a b = true ↔ specAdjacent a b))
    ∧ Room.are_adjacent (cube 1 0) (cube 2 5) = true
    ∧ Room.are_adjacent (cube 1 0) (cube 2 10) = false := by
  refine ⟨?_, by decide, by decide⟩
  intro a b hax hay haz hbx hby hbz
  simp only [Room.are_adjacent, specAdjacent, touchesExactly, overlapsPositively,
    Bool.or_eq_true, Bool.and_eq_true, Bool.not_eq_true', Bool.or_eq_false_iff,
    decide_eq_false_iff_not, beq_iff_eq, not_le]
  omega

/-- C2 (witness): the amended equivalence applied to the two concrete spec
cubes, whose extents are positive. -/
theorem c2_adjacency_iff_spec_witness :
    (0 : Nat) < 5
      ∧ (Room.are_adjacent (cube 1 0) (cube 2 5) = true ↔ specAdjacent (cube 1 0) (cube 2 5)) :=
  ⟨by decide,
    c2_adjacency_iff_spec_on_positive_extents.1 (cube 1 0) (cube 2 5)
      (by decide) (by decide) (by decide) (by decide) (by decide) (by decide)⟩

/-- C3: `IslandData::rooms_are_adjacent` is symmetric in its two room ids, and
a room is never adjacent to itself — the equal-id test short-circuits to false
before any geometry is consulted. -/
theorem c3_rooms_are_adjacent_symm_irrefl :
    ∀ (d : IslandData) (a b : Nat),
      d.rooms_are_adjacent a b = d.rooms_are_adjacent b a
        ∧ d.rooms_are_adjacent a a = false := by
  intro d a b
  refine ⟨?_, by simp [IslandData.rooms_are_adjacent]⟩
  by_cases hab : a = b
  · subst hab
    rfl
  · simp only [IslandData.rooms_are_adjacent, beq_iff_eq, hab, Ne.symm hab, if_false,
      reduceIte]
    cases hfa : d.rooms.find? (fun r => r.room_id == a) <;>
      cases hfb : d.rooms.find? (fun r => r.room_id == b) <;>
      simp [are_adjacent_symm]

/-- Every branch of `load_island_config` ends in a returned value or a runtime
error; no branch panics. -/
theorem load_island_config_never_crashes (env : Sandbox.LoaderEnv)
    (st : Sandbox.IslandData) (p m : String) :
    (Sandbox.load_island_config env st p).1 ≠ Sandbox.Outcome.crash m := by
  unfold Sandbox.load_island_config
  split
  · simp
  · split
    · simp
    · split
      · simp
      · simp

/-- Every branch of `load_entity_spawn` ends in a returned value or a runtime
error; no branch panics. -/
theorem load_entity_spawn_never_crashes (env : Sandbox.LoaderEnv)
    (st : Sandbox.IslandData) (p m : String) :
    (Sandbox.load_entity_spawn env st p).1 ≠ Sandbox.Outcome.crash m := by
  unfold Sandbox.load_entity_spawn
  split
  · simp
  · split
    · simp
    · split
      · simp
      · simp

/-- Every branch of `register_room` ends in a returned value or a runtime
error; no branch panics. -/
theorem register_room_never_crashes (env : Sandbox.LoaderEnv)
    (st : Sandbox.IslandData) (p : String) (opts : List (Lua.TKey × Lua.Value))
    (m : String) :
    (Sandbox.register_room env st p opts).1 ≠ Sandbox.Outcome.crash m := by
  simp only [Sandbox.register_room]
  split
  · simp
  · split
    · simp
    · split
      · simp
      · split
        · simp
        · split
          · simp
          · simp

/-- C1 (code bug evidence): `load_island_config`, `load_entity_spawn` and
`register_room` surface every failure as a catchable runtime error, but
`register_gltf` unwraps the path validation result, so a path that fails
validation panics the process instead of raising a catchable error. -/
theorem c1_register_gltf_path_failure_crashes
    (env : Sandbox.LoaderEnv) (st : Sandbox.IslandData) (name path e : String)
    (hname : env.validate_filename name = Except.ok ())
    (hpath : env.validate_path path st.base_path = Except.error e) :
    Sandbox.register_gltf env st name path = (Sandbox.Outcome.crash e, st)
      ∧ (∀ p m, (Sandbox.load_island_config env st p).1 ≠ Sandbox.Outcome.crash m)
      ∧ (∀ p m, (Sandbox.load_entity_spawn env st p).1 ≠ Sandbox.Outcome.crash m)
      ∧ (∀ p opts m, (Sandbox.register_room env st p opts).1 ≠ Sandbox.Outcome.crash m) := by
  refine ⟨?_, fun p m => load_island_config_never_crashes env st p m,
    fun p m => load_entity_spawn_never_crashes env st p m,
    fun p opts m => register_room_never_crashes env st p opts m⟩
  unfold Sandbox.register_gltf
  rw [hname, hpath]

/-- C1 (witness): the concrete traversal path crashes `register_gltf` under a
validator that rejects it, starting from the freshly created session state. -/
theorem c1_register_gltf_path_failure_crashes_witness :
    envReject.validate_filename "character" = Except.ok ()
      ∧ envReject.validate_path "../../etc/passwd" Sandbox.IslandData.init.base_path
          = Except.error "path escapes base directory"
      ∧ Sandbox.register_gltf envReject Sandbox.IslandData.init "character" "../../etc/passwd"
          = (Sandbox.Outcome.crash "path escapes base directory", Sandbox.IslandData.init) :=
  ⟨rfl, rfl,
    (c1_register_gltf_path_failure_crashes envReject Sandbox.IslandData.init
      "character" "../../etc/passwd" "path escapes base directory" rfl rfl).1⟩

set_option linter.unnecessarySeqFocus false in
/-- C4: the script-facing `rooms_are_adjacent` raises the runtime error
`Island config not loaded` when no config is loaded, and with a loaded config
it returns `false` silently when either room id is not found among the loaded
rooms. -/
theorem c4_rooms_are_adjacent_error_contract
    (st : Sandbox.IslandData) (a b : Nat) :
    (st.island_config = none →
        Sandbox.rooms_are_adjacent st a b = Sandbox.Outcome.err "Island config not loaded")
      ∧ (∀ cfg, st.island_config = some cfg →
          (st.rooms.find? (fun r => r.room_id == a) = none
              ∨ st.rooms.find? (fun r => r.room_id == b) = none) →
          Sandbox.rooms_are_adjacent st a b = Sandbox.Outcome.ok false) := by
  constructor
  · intro h
    unfold Sandbox.rooms_are_adjacent Sandbox.get_mechanics_island_data
    rw [h]
    rfl
  · intro cfg hc hmiss
    unfold Sandbox.rooms_are_adjacent Sandbox.get_mechanics_island_data
    rw [hc]
    simp only [Option.map_some']
    refine congrArg Sandbox.Outcome.ok ?_
    by_cases hab : a = b
    · simp [Mechanics.IslandData.rooms_are_adjacent, hab]
    · unfold Mechanics.IslandData.rooms_are_adjacent
      rw [if_neg (by simp [hab])]
      dsimp only
      rcases hmiss with h1 | h1 <;> rw [h1] <;> split <;> first | rfl | simp_all

/-- C4 (witness): on the fresh session state, which has no island config, the
query raises the documented runtime error. -/
theorem c4_rooms_are_adjacent_error_contract_witness :
    Sandbox.IslandData.init.island_config = none
      ∧ Sandbox.rooms_are_adjacent Sandbox.IslandData.init 1 2
          = Sandbox.Outcome.err "Island config not loaded" :=
  ⟨rfl, (c4_rooms_are_adjacent_error_contract Sandbox.IslandData.init 1 2).1 rfl⟩

/-- C5: when the validated path fails to read, `load_island_config` returns a
runtime error whose message embeds the requested path and leaves the state
untouched; and in general, every run either fails with a runtime error and an
unchanged state, or succeeds having changed nothing but the config field. -/
theorem c5_load_island_config_atomic
    (env : Sandbox.LoaderEnv) (st : Sandbox.IslandData) (path resolved e : String)
    (hv : env.validate_path path st.base_path = Except.ok resolved)
    (hr : env.read_to_string resolved = Except.error e) :
    Sandbox.load_island_config env st path
        = (Sandbox.Outcome.err ("Failed to read island config from " ++ path ++ ": " ++ e), st)
      ∧ (∃ lead trail, "Failed to read island config from " ++ path ++ ": " ++ e
            = lead ++ path ++ trail)
      ∧ (∀ (env' : Sandbox.LoaderEnv) (st' : Sandbox.IslandData) (p : String),
          (∃ m, Sandbox.load_island_config env' st' p = (Sandbox.Outcome.err m, st'))
            ∨ (∃ island, Sandbox.load_island_config env' st' p
                = (Sandbox.Outcome.ok (), { st' with island_config := some island }))) := by
  refine ⟨?_, ⟨"Failed to read island config from ", ": " ++ e, ?_⟩, ?_⟩
  · simp [Sandbox.load_island_config, hv, hr]
  · simp [String.append_assoc]
  · intro env' st' p
    unfold Sandbox.load_island_config
    split
    · exact Or.inl ⟨_, rfl⟩
    · split
      · exact Or.inl ⟨_, rfl⟩
      · split
        · exact Or.inl ⟨_, rfl⟩
        · exact Or.inr ⟨_, rfl⟩

/-- C5 (witness): loading a missing file reports the requested path in the
error message and returns the initial state unchanged. -/
theorem c5_load_island_config_atomic_witness :
    envMissingFile.validate_path "ron/island.ron" Sandbox.IslandData.init.base_path
        = Except.ok "ron/island.ron"
      ∧ envMissingFile.read_to_string "ron/island.ron"
          = Except.error "No such file or directory"
      ∧ Sandbox.load_island_config envMissingFile Sandbox.IslandData.init "ron/island.ron"
          = (Sandbox.Outcome.err
              ("Failed to read island config from " ++ "ron/island.ron" ++ ": "
                ++ "No such file or directory"),
             Sandbox.IslandData.init) :=
  ⟨rfl, rfl,
    (c5_load_island_config_atomic envMissingFile Sandbox.IslandData.init
      "ron/island.ron" "ron/island.ron" "No such file or directory" rfl rfl).1⟩

/-- C6: when path validation fails, each loading operation returns that error
with the state unchanged, and the result does not depend on the file system at
all — replacing the read function changes nothing, so no file access happens. -/
theorem c6_validation_failure_blocks_loading
    (env : Sandbox.LoaderEnv) (st : Sandbox.IslandData) (path e : String)
    (opts : List (Lua.TKey × Lua.Value))
    (hv : env.validate_path path st.base_path = Except.error e) :
    (Sandbox.load_island_config env st path = (Sandbox.Outcome.err e, st)
      ∧ Sandbox.load_entity_spawn env st path = (Sandbox.Outcome.err e, st)
      ∧ Sandbox.register_room env st path opts = (Sandbox.Outcome.err e, st))
      ∧ ∀ rf, Sandbox.load_island_config { env with read_to_string := rf } st path
              = (Sandbox.Outcome.err e, st)
          ∧ Sandbox.load_entity_spawn { env with read_to_string := rf } st path
              = (Sandbox.Outcome.err e, st)
          ∧ Sandbox.register_room { env with read_to_string := rf } st path opts
              = (Sandbox.Outcome.err e, st) := by
  refine ⟨⟨?_, ?_, ?_⟩, fun rf => ⟨?_, ?_, ?_⟩⟩ <;>
    simp [Sandbox.load_island_config, Sandbox.load_entity_spawn, Sandbox.register_room, hv]

/-- C6 (witness): the concrete traversal path is rejected by the validator and
none of the three loaders touches the state. -/
theorem c6_validation_failure_blocks_loading_witness :
    envReject.validate_path "../../etc/passwd" Sandbox.IslandData.init.base_path
        = Except.error "path escapes base directory"
      ∧ Sandbox.load_island_config envReject Sandbox.IslandData.init "../../etc/passwd"
          = (Sandbox.Outcome.err "path escapes base directory", Sandbox.IslandData.init) :=
  ⟨rfl,
    (c6_validation_failure_blocks_loading envReject Sandbox.IslandData.init
      "../../etc/passwd" "path escapes base directory" [] rfl).1.1⟩

/-- C7 (counterexample): an option bag whose `values` sequence holds a single
boolean — a failing string conversion — parses without any runtime error; the
failing element is silently skipped and `values` comes back empty, so the
exception the claim carves out for the `values` option does not exist. -/
theorem c7_counterexample_values_element_dropped :
    Sandbox.parse_field_options valuesWithBoolean
        = Except.ok { default := none, min := none, max := none, values := some [],
                      keys := none, value_type := none, item_type := none, schema := none }
      ∧ ∀ m, Sandbox.parse_field_options valuesWithBoolean ≠ Except.error m := by
  refine ⟨rfl, fun m h => ?_⟩
  rw [show Sandbox.parse_field_options valuesWithBoolean
      = Except.ok { default := none, min := none, max := none, values := some [],
                    keys := none, value_type := none, item_type := none, schema := none }
    from rfl] at h
  exact Except.noConfusion h

/-- C7 (amended): option parsing is permissive — unrecognized or mistyped
option shapes are dropped, and a failing element conversion inside the
`values` sequence is silently skipped — while a failing conversion of a
directly typed option such as `min` surfaces as a runtime error. -/
theorem c7_amended_option_parsing :
    (∀ (opts : List (Lua.TKey × Lua.Value)) (b : Bool),
        Lua.tget opts (Lua.TKey.str "min") = Lua.Value.boolean b →
        Sandbox.parse_field_options opts = Except.error "error converting Lua value to i64")
      ∧ Sandbox.parse_field_options permissiveBag
          = Except.ok { default := none, min := some 3, max := none, values := some ["a"],
                        keys := none, value_type := none, item_type := none, schema := none } := by
  refine ⟨fun opts b h => ?_, rfl⟩
  unfold Sandbox.parse_field_options Lua.getOpt
  rw [h]
  rfl

/-- C7 (witness): the mistyped `min` option surfaces the i64 conversion
error. -/
theorem c7_amended_option_parsing_witness :
    Lua.tget mistypedMin (Lua.TKey.str "min") = Lua.Value.boolean true
      ∧ Sandbox.parse_field_options mistypedMin
          = Except.error "error converting Lua value to i64" :=
  ⟨rfl, c7_amended_option_parsing.1 mistypedMin true rfl⟩

/-- Looking up an association list at the head key. -/
theorem lookupAssoc_cons {κ α : Type} [BEq κ] (e : κ × α) (l : List (κ × α)) (k : κ) :
    lookupAssoc (e :: l) k = if e.1 == k then some e.2 else lookupAssoc l k := by
  unfold lookupAssoc
  cases h : (e.1 == k) <;> simp [List.find?_cons, h]

/-- After `entry(k).or_insert_with(Vec::new).push(r)` the sequence for `k` is
the old sequence with `r` appended (the empty sequence when `k` was absent). -/
theorem lookupAssoc_entryPush_self (m : List (String × List Sandbox.FieldRegistration))
    (k : String) (r : Sandbox.FieldRegistration) :
    lookupAssoc (Sandbox.entryPush m k r) k
      = some ((lookupAssoc m k).getD [] ++ [r]) := by
  induction m with
  | nil => simp [Sandbox.entryPush, lookupAssoc]
  | cons e rest ih =>
    by_cases hek : e.1 = k
    · simp [Sandbox.entryPush, hek, lookupAssoc_cons]
    · simp [Sandbox.entryPush, hek, lookupAssoc_cons, ih]

/-- `entryPush` leaves every other kind untouched. -/
theorem lookupAssoc_entryPush_other (m : List (String × List Sandbox.FieldRegistration))
    (k : String) (r : Sandbox.FieldRegistration) (k' : String) (h : k' ≠ k) :
    lookupAssoc (Sandbox.entryPush m k r) k' = lookupAssoc m k' := by
  induction m with
  | nil => simp [Sandbox.entryPush, lookupAssoc_cons, lookupAssoc, Ne.symm h]
  | cons e rest ih =>
    by_cases hek : e.1 = k
    · simp [Sandbox.entryPush, hek, lookupAssoc_cons, Ne.symm h]
    · simp [Sandbox.entryPush, hek, lookupAssoc_cons, ih]

/-- C8: with a parsed option bag, field registration succeeds, appends the new
registration at the end of the sequence for its kind (creating the sequence
when the kind is first seen), and leaves all other kinds untouched — for both
the tile and the entity registries. -/
theorem c8_register_field_appends_in_order
    (st : Sandbox.IslandData) (kind nm ty : String)
    (opts : List (Lua.TKey × Lua.Value)) (fo : Sandbox.FieldOptions)
    (hp : Sandbox.parse_field_options opts = Except.ok fo) :
    ((Sandbox.register_tile_field st kind nm ty opts).1 = Sandbox.Outcome.ok ()
      ∧ lookupAssoc (Sandbox.register_tile_field st kind nm ty opts).2.tile_fields kind
          = some ((lookupAssoc st.tile_fields kind).getD [] ++ [⟨nm, ty, fo⟩])
      ∧ ∀ k, k ≠ kind →
          lookupAssoc (Sandbox.register_tile_field st kind nm ty opts).2.tile_fields k
            = lookupAssoc st.tile_fields k)
      ∧ ((Sandbox.register_entity_field st kind nm ty opts).1 = Sandbox.Outcome.ok ()
      ∧ lookupAssoc (Sandbox.register_entity_field st kind nm ty opts).2.entity_fields kind
          = some ((lookupAssoc st.entity_fields kind).getD [] ++ [⟨nm, ty, fo⟩])
      ∧ ∀ k, k ≠ kind →
          lookupAssoc (Sandbox.register_entity_field st kind nm ty opts).2.entity_fields k
            = lookupAssoc st.entity_fields k) := by
  have ht : Sandbox.register_tile_field st kind nm ty opts
      = (Sandbox.Outcome.ok (),
          { st with tile_fields := Sandbox.entryPush st.tile_fields kind ⟨nm, ty, fo⟩ }) := by
    simp [Sandbox.register_tile_field, hp]
  have he : Sandbox.register_entity_field st kind nm ty opts
      = (Sandbox.Outcome.ok (),
          { st with entity_fields := Sandbox.entryPush st.entity_fields kind ⟨nm, ty, fo⟩ }) := by
    simp [Sandbox.register_entity_field, hp]
  rw [ht, he]
  exact ⟨⟨rfl, lookupAssoc_entryPush_self st.tile_fields kind ⟨nm, ty, fo⟩,
      fun k hk => lookupAssoc_entryPush_other st.tile_fields kind ⟨nm, ty, fo⟩ k hk⟩,
    ⟨rfl, lookupAssoc_entryPush_self st.entity_fields kind ⟨nm, ty, fo⟩,
      fun k hk => lookupAssoc_entryPush_other st.entity_fields kind ⟨nm, ty, fo⟩ k hk⟩⟩

/-- C8 (witness): the spec example — registering `damage_on_touch` of type
`int` with default 10 under kind `lava_tile` on the fresh state yields exactly
one field with that name, type and default. -/
theorem c8_register_field_appends_in_order_witness :
    Sandbox.parse_field_options defaultTenBag
        = Except.ok { default := some (Sandbox.DefaultValue.int 10), min := none, max := none,
                      values := none, keys := none, value_type := none, item_type := none,
                      schema := none }
      ∧ lookupAssoc (Sandbox.register_tile_field Sandbox.IslandData.init "lava_tile"
            "damage_on_touch" "int" defaultTenBag).2.tile_fields "lava_tile"
          = some [⟨"damage_on_touch", "int",
              { default := some (Sandbox.DefaultValue.int 10), min := none, max := none,
                values := none, keys := none, value_type := none, item_type := none,
                schema := none }⟩] := by
  refine ⟨rfl, ?_⟩
  have h := (c8_register_field_appends_in_order Sandbox.IslandData.init "lava_tile"
    "damage_on_touch" "int" defaultTenBag
    { default := some (Sandbox.DefaultValue.int 10), min := none, max := none,
      values := none, keys := none, value_type := none, item_type := none,
      schema := none } rfl).1.2.1
  simpa [Sandbox.IslandData.init, lookupAssoc] using h

/-- Decoding an encoded unsigned field recovers it. -/
theorem decodeNat_natCast (n : Nat) : Ron.decodeNat (Ron.Value.int n) = some n := rfl

/-- Decoding an encoded tile recovers it. -/
theorem decodeTile_encodeTile (t : Mechanics.TileData) :
    Ron.decodeTile (Ron.encodeTile t) = some t := by
  cases t <;> simp [Ron.encodeTile, Ron.decodeTile, decodeNat_natCast]

/-- Decoding an encoded sparse tile map recovers it. -/
theorem decodeTiles_encodeTiles (l : List (Nat × Mechanics.TileData)) :
    Ron.decodeTiles (Ron.encodeTiles l) = some l := by
  induction l with
  | nil => rfl
  | cons e rest ih =>
    simp only [Ron.encodeTiles, List.map_cons] at ih ⊢
    simp [Ron.decodeTiles, decodeNat_natCast, decodeTile_encodeTile, ih]

/-- Decoding an encoded property bag recovers it. -/
theorem decodeProps_encodeProps (l : List (String × String)) :
    Ron.decodeProps (Ron.encodeProps l) = some l := by
  induction l with
  | nil => rfl
  | cons e rest ih =>
    simp only [Ron.encodeProps, List.map_cons] at ih ⊢
    simp [Ron.decodeProps, ih]

/-- Decoding an encoded island recovers it. -/
theorem decodeIsland_encodeIsland (x : Mechanics.Island) :
    Ron.decodeIsland (Ron.encodeIsland x) = some x := by
  simp [Ron.encodeIsland, Ron.decodeIsland, decodeNat_natCast]

/-- Decoding an encoded room recovers it. -/
theorem decodeRoom_encodeRoom (x : Mechanics.Room) :
    Ron.decodeRoom (Ron.encodeRoom x) = some x := by
  show (Ron.decodeTiles (Ron.encodeTiles x.tiles)).bind
      (fun ts' => some ⟨x.room_id, x.pos_x, x.pos_y, x.pos_z, x.extent_x, x.extent_y,
        x.extent_z, x.looping_x, x.looping_y, x.looping_z, ts'⟩) = some x
  rw [decodeTiles_encodeTiles]
  rfl

/-- Decoding an encoded entity spawn recovers it. -/
theorem decodeSpawn_encodeSpawn (x : Mechanics.EntitySpawn) :
    Ron.decodeSpawn (Ron.encodeSpawn x) = some x := by
  simp [Ron.encodeSpawn, Ron.decodeSpawn, decodeNat_natCast, decodeProps_encodeProps]

/-- C9: deserializing the serialization of any `Island`, `Room` or
`EntitySpawn` value recovers the value exactly (round-trip law of the
modelled RON format). -/
theorem c9_ron_round_trip :
    (∀ x : Mechanics.Island, Ron.decodeIsland (Ron.encodeIsland x) = some x)
      ∧ (∀ x : Mechanics.Room, Ron.decodeRoom (Ron.encodeRoom x) = some x)
      ∧ (∀ x : Mechanics.EntitySpawn, Ron.decodeSpawn (Ron.encodeSpawn x) = some x) :=
  ⟨decodeIsland_encodeIsland, decodeRoom_encodeRoom, decodeSpawn_encodeSpawn⟩

/-- Inserting into the map and looking the key up returns the inserted value. -/
theorem lookupAssoc_insertAssoc_self {κ α : Type} [BEq κ] [LawfulBEq κ]
    (m : List (κ × α)) (k : κ) (v : α) :
    lookupAssoc (insertAssoc m k v) k = some v := by
  unfold insertAssoc lookupAssoc
  rw [List.find?_append]
  have hnone : (m.filter fun e => !(e.1 == k)).find? (fun e => e.1 == k) = none := by
    rw [List.find?_eq_none]
    intro e he
    have hmem := List.mem_filter.mp he
    simpa using hmem.2
  rw [hnone]
  simp

/-- Reading the `process` entry of an options table supplying both callbacks. -/
theorem getOpt_function_process (kp kq : Nat) :
    Lua.getOpt Lua.coerceFunction
      [(Lua.TKey.str "process", Lua.Value.function kp),
       (Lua.TKey.str "physics_process", Lua.Value.function kq)] "process"
      = Except.ok (some kp) := rfl

/-- Reading the `physics_process` entry of an options table supplying both
callbacks. -/
theorem getOpt_function_physics (kp kq : Nat) :
    Lua.getOpt Lua.coerceFunction
      [(Lua.TKey.str "process", Lua.Value.function kp),
       (Lua.TKey.str "physics_process", Lua.Value.function kq)] "physics_process"
      = Except.ok (some kq) := rfl

/-- C10: registering two rooms with the same id both succeeds and appends both
rooms to the list (no dedup), while both per-room callback maps — the process
map and the physics-process map, each keyed solely by room id — keep only the
callbacks of the later registration. -/
theorem c10_duplicate_room_appends_and_last_callback_wins
    (env : Sandbox.LoaderEnv) (st : Sandbox.IslandData)
    (p1 p2 rp1 rp2 content1 content2 : String)
    (r1 r2 : Mechanics.Room) (kp1 kq1 kp2 kq2 : Nat)
    (hv1 : env.validate_path p1 st.base_path = Except.ok rp1)
    (hr1 : env.read_to_string rp1 = Except.ok content1)
    (hp1 : env.parse_room content1 = Except.ok r1)
    (hv2 : env.validate_path p2 st.base_path = Except.ok rp2)
    (hr2 : env.read_to_string rp2 = Except.ok content2)
    (hp2 : env.parse_room content2 = Except.ok r2)
    (hid : r2.room_id = r1.room_id) :
    (Sandbox.register_room env st p1
        [(Lua.TKey.str "process", Lua.Value.function kp1),
         (Lua.TKey.str "physics_process", Lua.Value.function kq1)]).1
        = Sandbox.Outcome.ok ()
      ∧ (Sandbox.register_room env
            (Sandbox.register_room env st p1
              [(Lua.TKey.str "process", Lua.Value.function kp1),
               (Lua.TKey.str "physics_process", Lua.Value.function kq1)]).2
            p2 [(Lua.TKey.str "process", Lua.Value.function kp2),
                (Lua.TKey.str "physics_process", Lua.Value.function kq2)]).1
          = Sandbox.Outcome.ok ()
      ∧ (Sandbox.register_room env
            (Sandbox.register_room env st p1
              [(Lua.TKey.str "process", Lua.Value.function kp1),
               (Lua.TKey.str "physics_process", Lua.Value.function kq1)]).2
            p2 [(Lua.TKey.str "process", Lua.Value.function kp2),
                (Lua.TKey.str "physics_process", Lua.Value.function kq2)]).2.rooms
          = st.rooms ++ [r1, r2]
      ∧ lookupAssoc (Sandbox.register_room env
            (Sandbox.register_room env st p1
              [(Lua.TKey.str "process", Lua.Value.function kp1),
               (Lua.TKey.str "physics_process", Lua.Value.function kq1)]).2
            p2 [(Lua.TKey.str "process", Lua.Value.function kp2),
                (Lua.TKey.str "physics_process", Lua.Value.function kq2)]).2.room_process_fns
          r1.room_id
          = some kp2
      ∧ lookupAssoc (Sandbox.register_room env
            (Sandbox.register_room env st p1
              [(Lua.TKey.str "process", Lua.Value.function kp1),
               (Lua.TKey.str "physics_process", Lua.Value.function kq1)]).2
            p2 [(Lua.TKey.str "process", Lua.Value.function kp2),
                (Lua.TKey.str "physics_process", Lua.Value.function kq2)]).2.room_physics_process_fns
          r1.room_id
          = some kq2 := by
  refine ⟨?_, ?_, ?_, ?_, ?_⟩ <;>
      simp only [Sandbox.register_room, hv1, hr1, hp1, hv2, hr2, hp2,
        getOpt_function_process, getOpt_function_physics, hid] <;>
    first
      | rfl
      | simp [List.append_assoc]
      | exact lookupAssoc_insertAssoc_self _ r1.room_id _

/-- C10 (witness): registering the same one-cell room file twice from the
fresh state, each time with a process and a physics-process callback, leaves
two copies in the room list and the second registration's callbacks in both
per-room maps. -/
theorem c10_duplicate_room_witness :
    (Sandbox.register_room envRoomLoader
        (Sandbox.register_room envRoomLoader Sandbox.IslandData.init "r.ron"
          [(Lua.TKey.str "process", Lua.Value.function 1),
           (Lua.TKey.str "physics_process", Lua.Value.function 11)]).2
        "r.ron" [(Lua.TKey.str "process", Lua.Value.function 2),
                 (Lua.TKey.str "physics_process", Lua.Value.function 12)]).2.rooms
      = [roomSeven, roomSeven]
    ∧ lookupAssoc (Sandbox.register_room envRoomLoader
        (Sandbox.register_room envRoomLoader Sandbox.IslandData.init "r.ron"
          [(Lua.TKey.str "process", Lua.Value.function 1),
           (Lua.TKey.str "physics_process", Lua.Value.function 11)]).2
        "r.ron" [(Lua.TKey.str "process", Lua.Value.function 2),
                 (Lua.TKey.str "physics_process", Lua.Value.function 12)]).2.room_process_fns
      roomSeven.room_id = some 2
    ∧ lookupAssoc (Sandbox.register_room envRoomLoader
        (Sandbox.register_room envRoomLoader Sandbox.IslandData.init "r.ron"
          [(Lua.TKey.str "process", Lua.Value.function 1),
           (Lua.TKey.str "physics_process", Lua.Value.function 11)]).2
        "r.ron" [(Lua.TKey.str "process", Lua.Value.function 2),
                 (Lua.TKey.str "physics_process", Lua.Value.function 12)]).2.room_physics_process_fns
      roomSeven.room_id = some 12 := by
  have h := c10_duplicate_room_appends_and_last_callback_wins envRoomLoader
    Sandbox.IslandData.init "r.ron" "r.ron" "r.ron" "r.ron" "" "" roomSeven roomSeven
    1 11 2 12 rfl rfl rfl rfl rfl rfl rfl
  exact ⟨by simpa [Sandbox.IslandData.init] using h.2.2.1, h.2.2.2.1, h.2.2.2.2⟩

end Tbol
